import Mathlib

/-
Verification of the exam-grading orchestration pipeline: a shallow embedding of
the grading repository's core control flow (retry/backoff around the scoring
oracle, prompt routing by exam type, JSON response handling, the transcript
cache, the vc-pitch audio guardrail, and the audio metric computation),
together with theorems settling the specified properties.
-/

namespace ExamGrader

/-- Retry bound shared by both sources (`MAX_RETRIES = 3`). -/
def MAX_RETRIES : ℕ := 3

/-- Initial backoff delay in seconds shared by both sources (`INITIAL_BACKOFF = 2.0`). -/
def INITIAL_BACKOFF : ℚ := 2

/-- JSON values, as produced by Python's `json.loads`. -/
inductive Json where
  | null : Json
  | bool (b : Bool) : Json
  | num (q : ℚ) : Json
  | str (s : String) : Json
  | arr (elems : List Json) : Json
  | obj (fields : List (String × Json)) : Json

/-- JSON whitespace skipping (space, tab, newline, carriage return). -/
def skipWs : List Char → List Char
  | [] => []
  | c :: cs => if c = ' ' ∨ c = '\n' ∨ c = '\t' ∨ c = '\r' then skipWs cs else c :: cs

/-- Reads a JSON string body after the opening quote, supporting the simple
escape sequences; returns the decoded characters and the rest of the input. -/
def readStringBody : List Char → Option (List Char × List Char)
  | [] => none
  | c :: cs =>
    if c = '"' then some ([], cs)
    else if c = '\\' then
      match cs with
      | [] => none
      | d :: ds =>
        match readStringBody ds with
        | none => none
        | some (body, rest) =>
          if d = '"' ∨ d = '\\' ∨ d = '/' then some (d :: body, rest)
          else if d = 'n' then some ('\n' :: body, rest)
          else if d = 't' then some ('\t' :: body, rest)
          else if d = 'r' then some ('\r' :: body, rest)
          else none
    else
      match readStringBody cs with
      | none => none
      | some (body, rest) => some (c :: body, rest)

/-- Reads a run of decimal digits: accumulated value, number of digits read,
and the remaining input. -/
def readDigits : List Char → ℕ → ℕ × ℕ × List Char
  | [], acc => (acc, 0, [])
  | c :: cs, acc =>
    if c.isDigit then
      let r := readDigits cs (acc * 10 + (c.toNat - 48))
      (r.1, r.2.1 + 1, r.2.2)
    else (acc, 0, c :: cs)

/-- Reads a JSON number: optional minus sign, integer part, optional fraction
(exponents are outside the fragment the sources exchange). -/
def readNumber (cs : List Char) : Option (ℚ × List Char) :=
  let signed : Bool × List Char :=
    match cs with
    | '-' :: rest => (true, rest)
    | _ => (false, cs)
  match readDigits signed.2 0 with
  | (_, 0, _) => none
  | (ip, _ + 1, cs2) =>
    let withFrac : ℚ × List Char :=
      match cs2 with
      | '.' :: rest =>
        match readDigits rest 0 with
        | (_, 0, _) => ((ip : ℚ), cs2)
        | (fp, m + 1, cs3) => ((ip : ℚ) + (fp : ℚ) / (10 : ℚ) ^ (m + 1), cs3)
      | _ => ((ip : ℚ), cs2)
    some (if signed.1 then -withFrac.1 else withFrac.1, withFrac.2)

/-- Reader mode: a single value, the remaining elements of an array, or the
remaining fields of an object (with the part already read accumulated). -/
inductive JMode where
  | value : JMode
  | elems (acc : List Json) : JMode
  | fields (acc : List (String × Json)) : JMode

/-- The recursive JSON reader, with fuel bounding the recursion depth.  Each
recursive call decreases the fuel; `json_loads` supplies enough fuel that the
bound is never the reason a well-formed document is rejected. -/
def readJson (fuel : ℕ) (mode : JMode) (cs : List Char) : Option (Json × List Char) :=
  match fuel with
  | 0 => none
  | fuel + 1 =>
    match mode with
    | JMode.value =>
      match skipWs cs with
      | 'n' :: 'u' :: 'l' :: 'l' :: rest => some (Json.null, rest)
      | 't' :: 'r' :: 'u' :: 'e' :: rest => some (Json.bool true, rest)
      | 'f' :: 'a' :: 'l' :: 's' :: 'e' :: rest => some (Json.bool false, rest)
      | '"' :: rest =>
        match readStringBody rest with
        | some (body, rest2) => some (Json.str (String.mk body), rest2)
        | none => none
      | '[' :: rest =>
        match skipWs rest with
        | ']' :: rest2 => some (Json.arr [], rest2)
        | rest2 => readJson fuel (JMode.elems []) rest2
      | '{' :: rest =>
        match skipWs rest with
        | '}' :: rest2 => some (Json.obj [], rest2)
        | rest2 => readJson fuel (JMode.fields []) rest2
      | rest =>
        match readNumber rest with
        | some (q, rest2) => some (Json.num q, rest2)
        | none => none
    | JMode.elems acc =>
      match readJson fuel JMode.value cs with
      | none => none
      | some (v, rest) =>
        match skipWs rest with
        | ',' :: rest2 => readJson fuel (JMode.elems (v :: acc)) rest2
        | ']' :: rest2 => some (Json.arr (v :: acc).reverse, rest2)
        | _ => none
    | JMode.fields acc =>
      match skipWs cs with
      | '"' :: rest =>
        match readStringBody rest with
        | none => none
        | some (keyChars, rest2) =>
          match skipWs rest2 with
          | ':' :: rest3 =>
            match readJson fuel JMode.value rest3 with
            | none => none
            | some (v, rest4) =>
              match skipWs rest4 with
              | ',' :: rest5 => readJson fuel (JMode.fields ((String.mk keyChars, v) :: acc)) rest5
              | '}' :: rest5 => some (Json.obj ((String.mk keyChars, v) :: acc).reverse, rest5)
              | _ => none
          | _ => none
      | _ => none

/-- Model of Python's `json.loads` on the JSON fragment the sources exchange
(null, booleans, simply-escaped strings, decimal numbers, arrays, objects):
`some` value on success, `none` where `json.loads` raises `JSONDecodeError`. -/
def json_loads (s : String) : Option Json :=
  match readJson (2 * s.data.length + 2) JMode.value s.data with
  | some (v, rest) => if skipWs rest = [] then some v else none
  | none => none

/-- The Python exception classes visible to the two retry wrappers.  Every
OpenAI API error class — including the semantic `InvalidRequestError` raised
for malformed requests — derives from the base class `OpenAIError`; errors
from outside the client library do not. -/
inductive PyErr where
  | rateLimitError
  | apiConnectionError
  | timeoutError
  | serviceUnavailableError
  | invalidRequestError
  | otherOpenAIError
  | nonOpenAIError
deriving DecidableEq

/-- isinstance check against the base class `OpenAIError`. -/
def isOpenAIError : PyErr → Bool
  | PyErr.nonOpenAIError => false
  | _ => true

/-- The except clause of the multi-agent `call_with_backoff`:
`except (RateLimitError, OpenAIError, APIConnectionError, Timeout)`. -/
def multiCatch (e : PyErr) : Bool :=
  (e == PyErr.rateLimitError) || isOpenAIError e ||
    (e == PyErr.apiConnectionError) || (e == PyErr.timeoutError)

/-- The two except clauses (with identical bodies) of the narrative-agent
`call_with_backoff`: `except (RateLimitError, ServiceUnavailableError)` and
`except (APIConnectionError, Timeout)`. -/
def narrCatch (e : PyErr) : Bool :=
  ((e == PyErr.rateLimitError) || (e == PyErr.serviceUnavailableError)) ||
    ((e == PyErr.apiConnectionError) || (e == PyErr.timeoutError))

/-- The spec's transient-failure set: rate-limiting, connection errors,
timeouts, service-unavailable. -/
def isTransient : PyErr → Bool
  | PyErr.rateLimitError => true
  | PyErr.apiConnectionError => true
  | PyErr.timeoutError => true
  | PyErr.serviceUnavailableError => true
  | _ => false

/-- One oracle invocation either returns a response or raises an exception. -/
inductive OracleOutcome where
  | ok (response : String)
  | err (e : PyErr)
deriving DecidableEq

/-- Result of the wrapped call: the returned value or the propagated exception. -/
inductive CallResult where
  | ok (response : String)
  | raised (e : PyErr)
deriving DecidableEq

/-- Observable trace of one `call_with_backoff` run: its result, the number of
oracle invocations made, and the sequence of sleep durations in seconds. -/
structure BackoffTrace where
  result : CallResult
  calls : ℕ
  sleeps : List ℚ
deriving DecidableEq

/-- The retry loop of `call_with_backoff`, one clause per remaining iteration;
`attempt` is the 1-based loop counter and the fuel is `MAX_RETRIES + 1 - attempt`
at every call, so the fuel-exhausted clause is dead code.  Mirrors
`for attempt in range(1, MAX_RETRIES + 1): try: return oracle() except catchSet:
if attempt == MAX_RETRIES: raise; time.sleep(backoff * (2 ** (attempt - 1)))`
where `backoff` stays `INITIAL_BACKOFF` throughout. -/
def backoffLoop (catchSet : PyErr → Bool) (oracle : ℕ → OracleOutcome) (attempt : ℕ) :
    ℕ → BackoffTrace
  | 0 => ⟨CallResult.raised PyErr.nonOpenAIError, 0, []⟩
  | fuel + 1 =>
    match oracle attempt with
    | OracleOutcome.ok v => ⟨CallResult.ok v, 1, []⟩
    | OracleOutcome.err e =>
      if catchSet e then
        if attempt = MAX_RETRIES then ⟨CallResult.raised e, 1, []⟩
        else
          let rest := backoffLoop catchSet oracle (attempt + 1) fuel
          ⟨rest.result, rest.calls + 1, INITIAL_BACKOFF * 2 ^ (attempt - 1) :: rest.sleeps⟩
      else ⟨CallResult.raised e, 1, []⟩

/-- `call_with_backoff` of the multi-agent source, instrumented with its trace. -/
def call_with_backoff_multi (oracle : ℕ → OracleOutcome) : BackoffTrace :=
  backoffLoop multiCatch oracle 1 MAX_RETRIES

/-- `call_with_backoff` of the narrative-agent source, instrumented with its trace. -/
def call_with_backoff_narr (oracle : ℕ → OracleOutcome) : BackoffTrace :=
  backoffLoop narrCatch oracle 1 MAX_RETRIES

/-- Python `str.strip()`: whitespace dropped from both ends. -/
def pyStrip (s : String) : String :=
  String.mk (((s.data.dropWhile Char.isWhitespace).reverse.dropWhile Char.isWhitespace).reverse)

/-- Finds the end of a replacement field opened by a brace, counting nested
braces as CPython's format parser does; returns the field contents (trailing
the accumulator, kept reversed for tail recursion) and the input after the
matching closing brace. -/
def findFieldEnd (acc : List Char) : ℕ → List Char → Option (List Char × List Char)
  | _, [] => none
  | depth, c :: cs =>
    if c = '}' then
      if depth = 0 then some (acc.reverse, cs)
      else findFieldEnd (c :: acc) (depth - 1) cs
    else if c = '{' then findFieldEnd (c :: acc) (depth + 1) cs
    else findFieldEnd (c :: acc) depth cs

/-- The field-name part of a replacement field: everything up to the first
colon (start of the format spec) or exclamation mark (conversion). -/
def formatFieldName (f : List Char) : List Char :=
  f.takeWhile (fun c => ¬(c = ':' ∨ c = '!'))

/-- Model of Python's `str.format` called with a single keyword argument, the
only way the sources use it: doubled braces are brace literals, a replacement
field whose name equals the keyword is substituted by the value, any other
field name raises KeyError (CPython looks the name up before rendering the
format spec), and an unmatched brace raises ValueError.  The fuel is the input
length; every step consumes at least one character. -/
def pyFormatAux (key val : String) (acc : List Char) : ℕ → List Char → Except String (List Char)
  | 0, _ => Except.error "format: out of fuel"
  | _ + 1, [] => Except.ok acc.reverse
  | fuel + 1, c :: cs =>
    if c = '{' then
      match cs with
      | d :: ds =>
        if d = '{' then pyFormatAux key val ('{' :: acc) fuel ds
        else
          match findFieldEnd [] 0 cs with
          | none => Except.error "ValueError: unmatched brace in format string"
          | some (f, rest) =>
            if formatFieldName f = key.data then
              pyFormatAux key val (val.data.reverse ++ acc) fuel rest
            else Except.error ("KeyError: " ++ String.mk (formatFieldName f))
      | [] => Except.error "ValueError: unmatched brace in format string"
    else if c = '}' then
      match cs with
      | d :: ds =>
        if d = '}' then pyFormatAux key val ('}' :: acc) fuel ds
        else Except.error "ValueError: unmatched brace in format string"
      | [] => Except.error "ValueError: unmatched brace in format string"
    else pyFormatAux key val (c :: acc) fuel cs

/-- `template.format(key=val)` as the multi-agent source calls it. -/
def pyFormat (template key val : String) : Except String String :=
  match pyFormatAux key val [] (template.data.length + 1) template.data with
  | Except.ok out => Except.ok (String.mk out)
  | Except.error e => Except.error e

/-- `TECHNICAL_PROMPT_TEMPLATE` of the multi-agent source, verbatim. -/
def TECHNICAL_PROMPT_TEMPLATE : String := "
You are a grading assistant for technical exams. Your role is to evaluate student responses based on the provided questions and, if available, the rubric.

### Grading Instructions:
- For each question:
  - Read the question and the student\x27s answer.
  - If a rubric is provided for that question, follow it carefully to assign points based on the expected criteria.
  - If no rubric is provided, use your expert-level knowledge of the subject to assess:
    - Factual accuracy.
    - Completeness.
    - Clarity.
- Assign a score for each answer:
  - Use the point scale from the rubric, or if none is provided, use a default scale of 0-10 points.
- Provide feedback for each answer:
  - Explain why the student received the score.
  - Offer suggestions for improvement if the answer is incomplete or incorrect.

### Output Format:
Respond ONLY with raw JSON (no markdown):
\x7b
  \x22question_1\x22: \x7b
    \x22score\x22: X,
    \x22feedback\x22: \x22...\x22
  \x7d,
  \x22question_2\x22: \x7b
    \x22score\x22: Y,
    \x22feedback\x22: \x22...\x22
  \x7d,
  ...
  \x22total_score\x22: Z
\x7d

### Rubric (if available):
\x7brubric_markdown\x7d
"

/-- `NARRATIVE_PROMPT_WITH_RUBRIC` of the multi-agent source, verbatim. -/
def NARRATIVE_PROMPT_WITH_RUBRIC : String := "
You are an exam grader. Use the rubric to assign each question a numeric score (0-10) and valuable concise feedback so the student can further understand their strengths and weaknesses of the material. Then compute the overall score as the average and provide general feedback. Return JSON.

### Output Format:
Respond ONLY with raw JSON (no markdown):
\x7b
  \x22question_1\x22: \x7b
    \x22score\x22: X,
    \x22feedback\x22: \x22...\x22
  \x7d,
  \x22question_2\x22: \x7b
    \x22score\x22: Y,
    \x22feedback\x22: \x22...\x22
  \x7d,
  ...
  \x22total_score\x22: Z
\x7d
"

/-- `NARRATIVE_PROMPT_NO_RUBRIC` of the multi-agent source, verbatim. -/
def NARRATIVE_PROMPT_NO_RUBRIC : String := "
You are an exam grader. The rubric is not available. Use your own criteria to assign each question a numeric score (0-10) and constructive feedback. Then compute the overall score as the average and provide general feedback. Return JSON.

### Output Format:
Respond ONLY with raw JSON (no markdown):
\x7b
  \x22question_1\x22: \x7b
    \x22score\x22: X,
    \x22feedback\x22: \x22...\x22
  \x7d,
  \x22question_2\x22: \x7b
    \x22score\x22: Y,
    \x22feedback\x22: \x22...\x22
  \x7d,
  ...
  \x22total_score\x22: Z
\x7d
"

/-- The system and user prompt assembled by the multi-agent `grade_exam`. -/
structure GradePrompts where
  system_prompt : String
  user_prompt : String
deriving DecidableEq

/-- The prompt-routing prefix of the multi-agent `grade_exam` (its body up to
the oracle call): `rubric_markdown = rubric.strip() or "No rubric provided."`,
then a branch on `exam_type` — the technical branch formats
`TECHNICAL_PROMPT_TEMPLATE` (an exception from `str.format` propagates), and
every other `exam_type` falls through to the narrative default, with or
without rubric. -/
def grade_exam_prompts (rubric questions responses exam_type : String) :
    Except String GradePrompts :=
  let rubric_markdown := if pyStrip rubric = "" then "No rubric provided." else pyStrip rubric
  if exam_type = "technical" then
    match pyFormat TECHNICAL_PROMPT_TEMPLATE "rubric_markdown" rubric_markdown with
    | Except.error e => Except.error e
    | Except.ok formatted =>
      Except.ok ⟨"You are a helpful technical exam grader.",
        formatted ++ "\n\nQuestions:\n" ++ questions ++ "\n\nStudent Responses:\n" ++ responses⟩
  else
    if pyStrip rubric ≠ "" then
      Except.ok ⟨NARRATIVE_PROMPT_WITH_RUBRIC,
        "Rubric:\n" ++ rubric ++ "\n\nQuestions:\n" ++ questions ++
          "\n\nStudent Responses:\n" ++ responses⟩
    else
      Except.ok ⟨NARRATIVE_PROMPT_NO_RUBRIC,
        "Questions:\n" ++ questions ++ "\n\nStudent Responses:\n" ++ responses⟩

/-- Exceptions `grade_exam` can propagate to its caller: a KeyError/ValueError
from `str.format`, an exception re-raised by `call_with_backoff`, or — in the
narrative-agent source only — the `JSONDecodeError` from `json.loads`. -/
inductive GradeErr where
  | formatRaised (msg : String)
  | oracleRaised (e : PyErr)
  | jsonDecodeRaised
deriving DecidableEq

/-- `grade_exam` of the multi-agent source: builds the prompts (routing on
`exam_type`), invokes `call_with_backoff`, then `json.loads` on the response
content; a `JSONDecodeError` is caught and turned into the returned dict
`{"error": "Invalid JSON", "raw": raw_response}`. -/
def grade_exam_multi (rubric questions responses exam_type : String)
    (oracle : ℕ → OracleOutcome) : Except GradeErr Json :=
  match grade_exam_prompts rubric questions responses exam_type with
  | Except.error e => Except.error (GradeErr.formatRaised e)
  | Except.ok _prompts =>
    match (call_with_backoff_multi oracle).result with
    | CallResult.raised e => Except.error (GradeErr.oracleRaised e)
    | CallResult.ok raw_response =>
      match json_loads raw_response with
      | some j => Except.ok j
      | none => Except.ok (Json.obj [("error", Json.str "Invalid JSON"),
          ("raw", Json.str raw_response)])

/-- `grade_exam` of the narrative-agent source: fixed narrative prompt, the
backoff-wrapped oracle call, then `json.loads` of the returned function-call
arguments with no exception handling — a decode failure propagates. -/
def grade_exam_narr (rubric questions responses : String)
    (oracle : ℕ → OracleOutcome) : Except GradeErr Json :=
  let _user_prompt := "Rubric:\n" ++ rubric ++ "\n\nQuestions:\n" ++ questions ++
    "\n\nStudent Responses:\n" ++ responses
  match (call_with_backoff_narr oracle).result with
  | CallResult.raised e => Except.error (GradeErr.oracleRaised e)
  | CallResult.ok args =>
    match json_loads args with
    | some j => Except.ok j
    | none => Except.error GradeErr.jsonDecodeRaised

/-- First binding of a key in a JSON object's field list. -/
def jsonLookup : List (String × Json) → String → Option Json
  | [], _ => none
  | (k, v) :: rest, key => if k = key then some v else jsonLookup rest key

/-- Modelled from the spec: the oracle-reported aggregate of a grading result —
the `total_score` field of the returned JSON object, when numeric. -/
def totalScoreOf (j : Json) : Option ℚ :=
  match j with
  | Json.obj fields =>
    match jsonLookup fields "total_score" with
    | some (Json.num q) => some q
    | _ => none
  | _ => none

/-- Modelled from the spec: the per-question scores of a grading result — the
numeric `score` subfield of every field of the returned JSON object other than
`total_score`. -/
def questionScoresOf (j : Json) : List ℚ :=
  match j with
  | Json.obj fields =>
    fields.filterMap fun kv =>
      if kv.1 = "total_score" then none
      else
        match kv.2 with
        | Json.obj sub =>
          match jsonLookup sub "score" with
          | some (Json.num q) => some q
          | _ => none
        | _ => none
  | _ => []

/-- Modelled from the spec: the sum aggregation of the parts' scores. -/
def sumScores (xs : List ℚ) : ℚ := xs.sum

/-- Modelled from the spec: the mean aggregation of the parts' scores. -/
def meanScores (xs : List ℚ) : ℚ := xs.sum / (xs.length : ℚ)

/-- The oracle-reported total of a `grade_exam` result, when one was returned. -/
def resultTotal : Except GradeErr Json → Option ℚ
  | Except.ok j => totalScoreOf j
  | Except.error _ => none

/-- The per-question scores of a `grade_exam` result. -/
def resultQuestionScores : Except GradeErr Json → List ℚ
  | Except.ok j => questionScoresOf j
  | Except.error _ => []

/-- `os.path.basename` for POSIX paths: the part after the last slash. -/
def os_path_basename (p : String) : String :=
  String.mk ((p.data.reverse.takeWhile (fun c => ¬c = '/')).reverse)

/-- The cache directory contents, a map from file name to stored text — the
observable state `transcribe` reads and writes under `RUBRIC_CACHE_DIR`. -/
def CacheFS : Type := String → Option String

/-- A cache-file write that overwrites (or creates) one entry. -/
def cacheWrite (fs : CacheFS) (name contents : String) : CacheFS :=
  fun n => if n = name then some contents else fs n

/-- Whether the persistence write performed on a cache miss succeeds or raises
(disk full, permissions); an environment parameter of one `transcribe` run. -/
inductive WriteBehavior where
  | succeeds
  | fails
deriving DecidableEq

/-- What one `transcribe` call observably returns: the transcript, or the
propagated exception from the failed cache-file write. -/
inductive TranscribeOutcome where
  | ok (transcript : String)
  | raisedWriteError
deriving DecidableEq

/-- Observable trace of one `transcribe` call: its outcome, the cache state it
leaves behind, and how many times the external transcription was invoked. -/
structure TranscribeRun where
  outcome : TranscribeOutcome
  fs : CacheFS
  computeCalls : ℕ

/-- `transcribe` of the multi-agent source: the cache file is named by the mp3
path's basename plus ".txt"; a hit returns the stored text with no external
call; a miss invokes the external transcription (whose result is the
`computed` parameter), writes the cache file, and returns the transcript.  The
write is not guarded by any try/except, so a failing write raises out of the
function after the external call was already made. -/
def transcribe (fs : CacheFS) (computed : String) (write : WriteBehavior)
    (mp3_path : String) : TranscribeRun :=
  let cache_file := os_path_basename mp3_path ++ ".txt"
  match fs cache_file with
  | some stored => ⟨TranscribeOutcome.ok stored, fs, 0⟩
  | none =>
    match write with
    | WriteBehavior.succeeds =>
      ⟨TranscribeOutcome.ok computed, cacheWrite fs cache_file computed, 1⟩
    | WriteBehavior.fails => ⟨TranscribeOutcome.raisedWriteError, fs, 1⟩

/-- The structured answer of the boolean audio-check oracle (`VCAudioCheck`). -/
structure VCAudioCheck where
  has_audio : Bool
  reasoning : String

/-- The value `require_audio` builds from the guardrail oracle's answer
(`GuardrailFunctionOutput(output_info=out.has_audio,
tripwire_triggered=not out.has_audio)`). -/
structure GuardrailFunctionOutput where
  output_info : Bool
  tripwire_triggered : Bool
deriving DecidableEq

/-- `require_audio` of the single-file agents source, as a function of the
guardrail oracle's parsed answer. -/
def require_audio (checkAnswer : VCAudioCheck) : GuardrailFunctionOutput :=
  { output_info := checkAnswer.has_audio, tripwire_triggered := !checkAnswer.has_audio }

/-- Terminal state of one vc-pitch run: halted at the missing-audio gate, or
proceeded to the specialist grading call. -/
inductive VCPitchOutcome where
  | missingRequiredInput
  | graded
deriving DecidableEq

/-- Observable trace of one vc-pitch submission: its terminal state and how
many times the grading oracle was invoked. -/
structure VCPitchRun where
  outcome : VCPitchOutcome
  gradingOracleCalls : ℕ
deriving DecidableEq

/-- Modelled from the spec: the agents-SDK run of `vc_pitch_agent`, whose
`input_guardrails` list carries `require_audio` — the SDK evaluates the
guardrail on the inputs first and, when its tripwire is triggered, halts the
run with the tripwire error (the `MissingRequiredInput` failure of the spec's
taxonomy) before the specialist's grading-oracle call; only otherwise does the
grading call run.  The SDK machinery itself is outside the repository, so this
wiring follows the spec's guardrail contract. -/
def run_vc_pitch_agent (checkAnswer : VCAudioCheck) : VCPitchRun :=
  if (require_audio checkAnswer).tripwire_triggered then
    ⟨VCPitchOutcome.missingRequiredInput, 0⟩
  else ⟨VCPitchOutcome.graded, 1⟩

/-- `len(s.split())` in Python: the number of maximal non-whitespace runs. -/
def pyWordCount (s : String) : ℕ :=
  (s.data.foldl
    (fun st c =>
      if c.isWhitespace then (st.1, false)
      else if st.2 then st else (st.1 + 1, true))
    ((0 : ℕ), false)).1

/-- The voiced seconds `analyze_audio` computes:
`sum((e - s) for s, e in intervals) / sr`. -/
def voicedTime (intervals : List (ℕ × ℕ)) (sr : ℕ) : ℚ :=
  (intervals.map (fun p => (p.2 : ℚ) - (p.1 : ℚ))).sum / (sr : ℚ)

/-- The metrics dict `analyze_audio` returns. -/
structure AudioMetrics where
  duration : ℚ
  wpm : ℚ
  silence_ratio : ℚ
  transcript : String

/-- `analyze_audio` of the multi-agent source, as a function of what librosa
and the transcription return: the loaded samples' count `y_len` at sample rate
`sr` (librosa is asked for 16000), the transcript text, and the voice-activity
intervals in sample indices.  `duration = len(y)/sr`;
`wpm = word_count/(duration/60) if duration else 0`;
`silence_ratio = (duration - voiced)/duration if duration else 0`. -/
def analyze_audio (y_len sr : ℕ) (transcript : String)
    (intervals : List (ℕ × ℕ)) : AudioMetrics :=
  let duration : ℚ := (y_len : ℚ) / (sr : ℚ)
  let word_count : ℕ := pyWordCount transcript
  let wpm : ℚ := if duration ≠ 0 then (word_count : ℚ) / (duration / 60) else 0
  let voiced : ℚ := voicedTime intervals sr
  let silence_ratio : ℚ := if duration ≠ 0 then (duration - voiced) / duration else 0
  ⟨duration, wpm, silence_ratio, transcript⟩

/-- An oracle response whose self-reported total (3) differs from every
declared aggregation of its single part's score (8). -/
def inconsistentTotalResponse : String :=
  "\x7b\x22question_1\x22: \x7b\x22score\x22: 8, \x22feedback\x22: \x22ok\x22\x7d, \x22total_score\x22: 3\x7d"

/-! Helper lemmas about the retry loop, shared by the backoff theorems. -/

lemma backoffLoop_fuel_succ (c : PyErr → Bool) (o : ℕ → OracleOutcome) (a fuel : ℕ) :
    backoffLoop c o a (fuel + 1) =
      match o a with
      | OracleOutcome.ok v => ⟨CallResult.ok v, 1, []⟩
      | OracleOutcome.err e =>
        if c e then
          if a = MAX_RETRIES then ⟨CallResult.raised e, 1, []⟩
          else
            ⟨(backoffLoop c o (a + 1) fuel).result, (backoffLoop c o (a + 1) fuel).calls + 1,
              INITIAL_BACKOFF * 2 ^ (a - 1) :: (backoffLoop c o (a + 1) fuel).sleeps⟩
        else ⟨CallResult.raised e, 1, []⟩ := rfl

lemma backoffLoop_ok_spec (c : PyErr → Bool) (o : ℕ → OracleOutcome) (k : ℕ) (v : String)
    (hk : k < MAX_RETRIES)
    (hfail : ∀ i, 1 ≤ i → i ≤ k → ∃ e, o i = OracleOutcome.err e ∧ c e = true)
    (hsucc : o (k + 1) = OracleOutcome.ok v) :
    backoffLoop c o 1 MAX_RETRIES =
      ⟨CallResult.ok v, k + 1, (List.range k).map (fun i => INITIAL_BACKOFF * 2 ^ i)⟩ := by
  rw [MAX_RETRIES] at hk ⊢
  interval_cases k
  · simp only [show (3 : ℕ) = 2 + 1 from rfl, backoffLoop_fuel_succ]
    rw [show (0 : ℕ) + 1 = 1 from rfl] at hsucc
    simp [hsucc]
  · obtain ⟨e1, ho1, hc1⟩ := hfail 1 le_rfl le_rfl
    simp only [show (3 : ℕ) = 2 + 1 from rfl, backoffLoop_fuel_succ, ho1, hc1]
    rw [show (1 : ℕ) + 1 = 2 from rfl] at hsucc
    simp only [show (2 : ℕ) = 1 + 1 from rfl, backoffLoop_fuel_succ, hsucc]
    simp [MAX_RETRIES, List.range_succ]
  · obtain ⟨e1, ho1, hc1⟩ := hfail 1 le_rfl (by norm_num)
    obtain ⟨e2, ho2, hc2⟩ := hfail 2 (by norm_num) le_rfl
    rw [show (2 : ℕ) + 1 = 3 from rfl] at hsucc
    simp only [show (3 : ℕ) = 2 + 1 from rfl, backoffLoop_fuel_succ, ho1, hc1]
    simp only [show (2 : ℕ) = 1 + 1 from rfl, backoffLoop_fuel_succ, ho2, hc2, hsucc]
    simp [MAX_RETRIES, List.range_succ]

lemma backoffLoop_exhaust_spec (c : PyErr → Bool) (o : ℕ → OracleOutcome) (e3 : PyErr)
    (hfail : ∀ i, 1 ≤ i → i ≤ MAX_RETRIES → ∃ e, o i = OracleOutcome.err e ∧ c e = true)
    (h3 : o MAX_RETRIES = OracleOutcome.err e3) :
    backoffLoop c o 1 MAX_RETRIES =
      ⟨CallResult.raised e3, MAX_RETRIES, [INITIAL_BACKOFF, INITIAL_BACKOFF * 2]⟩ := by
  obtain ⟨e1, ho1, hc1⟩ := hfail 1 le_rfl (by simp [MAX_RETRIES])
  obtain ⟨e2, ho2, hc2⟩ := hfail 2 (by norm_num) (by simp [MAX_RETRIES])
  have hc3 : c e3 = true := by
    obtain ⟨e3x, ho3, hc3⟩ := hfail MAX_RETRIES (by simp [MAX_RETRIES]) le_rfl
    rw [h3] at ho3
    cases ho3
    exact hc3
  rw [MAX_RETRIES] at h3 ⊢
  have h1 := backoffLoop_fuel_succ c o 1 2
  rw [ho1] at h1
  simp only [hc1] at h1
  simp [MAX_RETRIES] at h1
  have h2 := backoffLoop_fuel_succ c o 2 1
  rw [ho2] at h2
  simp only [hc2] at h2
  simp [MAX_RETRIES] at h2
  have hL := backoffLoop_fuel_succ c o 3 0
  rw [h3] at hL
  simp only [hc3] at hL
  simp [MAX_RETRIES] at hL
  rw [h1, h2, hL]

lemma isTransient_multiCatch {e : PyErr} (h : isTransient e = true) : multiCatch e = true := by
  cases e <;> simp_all [isTransient, multiCatch, isOpenAIError]

lemma isTransient_narrCatch {e : PyErr} (h : isTransient e = true) : narrCatch e = true := by
  cases e <;> simp_all [isTransient, narrCatch]

/-- C2: for every k < MAX_RETRIES, an oracle that raises a transient error on
each of the first k invocations and succeeds on invocation k+1 makes
call_with_backoff (in both sources) return that success after exactly k+1
oracle invocations; an oracle that raises a transient error on every
invocation is invoked exactly MAX_RETRIES times, after which the last
transient failure propagates to the caller — it is not swallowed. -/
theorem C2_backoff_retry_semantics :
    (∀ (oracle : ℕ → OracleOutcome) (k : ℕ) (v : String), k < MAX_RETRIES →
      (∀ i, 1 ≤ i → i ≤ k → ∃ e, oracle i = OracleOutcome.err e ∧ isTransient e = true) →
      oracle (k + 1) = OracleOutcome.ok v →
      ((call_with_backoff_multi oracle).result = CallResult.ok v ∧
        (call_with_backoff_multi oracle).calls = k + 1) ∧
      ((call_with_backoff_narr oracle).result = CallResult.ok v ∧
        (call_with_backoff_narr oracle).calls = k + 1)) ∧
    (∀ (oracle : ℕ → OracleOutcome) (eLast : PyErr),
      (∀ i, 1 ≤ i → i ≤ MAX_RETRIES → ∃ e, oracle i = OracleOutcome.err e ∧ isTransient e = true) →
      oracle MAX_RETRIES = OracleOutcome.err eLast →
      ((call_with_backoff_multi oracle).calls = MAX_RETRIES ∧
        (call_with_backoff_multi oracle).result = CallResult.raised eLast) ∧
      ((call_with_backoff_narr oracle).calls = MAX_RETRIES ∧
        (call_with_backoff_narr oracle).result = CallResult.raised eLast)) := by
  constructor
  · intro oracle k v hk hfail hsucc
    have hm := backoffLoop_ok_spec multiCatch oracle k v hk
      (fun i h1 h2 => (hfail i h1 h2).elim fun e he => ⟨e, he.1, isTransient_multiCatch he.2⟩)
      hsucc
    have hn := backoffLoop_ok_spec narrCatch oracle k v hk
      (fun i h1 h2 => (hfail i h1 h2).elim fun e he => ⟨e, he.1, isTransient_narrCatch he.2⟩)
      hsucc
    rw [call_with_backoff_multi, call_with_backoff_narr, hm, hn]
    exact ⟨⟨rfl, rfl⟩, rfl, rfl⟩
  · intro oracle eLast hfail hLast
    have hm := backoffLoop_exhaust_spec multiCatch oracle eLast
      (fun i h1 h2 => (hfail i h1 h2).elim fun e he => ⟨e, he.1, isTransient_multiCatch he.2⟩)
      hLast
    have hn := backoffLoop_exhaust_spec narrCatch oracle eLast
      (fun i h1 h2 => (hfail i h1 h2).elim fun e he => ⟨e, he.1, isTransient_narrCatch he.2⟩)
      hLast
    rw [call_with_backoff_multi, call_with_backoff_narr, hm, hn]
    exact ⟨⟨rfl, rfl⟩, rfl, rfl⟩

/-- Witness for C2 at a concrete input: an oracle that rate-limits once and
then succeeds is called exactly twice and its success is returned, in both
sources. -/
theorem C2_backoff_retry_semantics_witness :
    ((fun n => if n = 1 then OracleOutcome.err PyErr.rateLimitError
        else OracleOutcome.ok "graded") (1 + 1) = OracleOutcome.ok "graded") ∧
    ((call_with_backoff_multi (fun n => if n = 1 then OracleOutcome.err PyErr.rateLimitError
        else OracleOutcome.ok "graded")).result = CallResult.ok "graded" ∧
      (call_with_backoff_multi (fun n => if n = 1 then OracleOutcome.err PyErr.rateLimitError
        else OracleOutcome.ok "graded")).calls = 1 + 1) ∧
    ((call_with_backoff_narr (fun n => if n = 1 then OracleOutcome.err PyErr.rateLimitError
        else OracleOutcome.ok "graded")).result = CallResult.ok "graded" ∧
      (call_with_backoff_narr (fun n => if n = 1 then OracleOutcome.err PyErr.rateLimitError
        else OracleOutcome.ok "graded")).calls = 1 + 1) :=
  ⟨rfl,
    C2_backoff_retry_semantics.1
      (fun n => if n = 1 then OracleOutcome.err PyErr.rateLimitError
        else OracleOutcome.ok "graded")
      1 "graded" (by norm_num [MAX_RETRIES])
      (fun i h1 h2 => by
        have hi : i = 1 := le_antisymm h2 h1
        subst hi
        exact ⟨PyErr.rateLimitError, rfl, rfl⟩)
      rfl⟩

/-- C3 (code bug): a semantic, non-transient error — the malformed-request
class `InvalidRequestError`, a subclass of `OpenAIError` — raised on every
invocation is NOT propagated immediately by the multi-agent
call_with_backoff: because its except clause names the base class
`OpenAIError`, the semantic error is retried MAX_RETRIES times with two
backoff sleeps before propagating.  The narrative-agent call_with_backoff,
whose except clauses name only the four transient classes, propagates the
same error immediately after a single invocation with no sleep. -/
theorem C3_semantic_error_retried_multi :
    call_with_backoff_multi (fun _ => OracleOutcome.err PyErr.invalidRequestError) =
      ⟨CallResult.raised PyErr.invalidRequestError, MAX_RETRIES,
        [INITIAL_BACKOFF, INITIAL_BACKOFF * 2]⟩ ∧
    call_with_backoff_narr (fun _ => OracleOutcome.err PyErr.invalidRequestError) =
      ⟨CallResult.raised PyErr.invalidRequestError, 1, []⟩ := by
  constructor
  · rw [call_with_backoff_multi]
    exact backoffLoop_exhaust_spec multiCatch _ PyErr.invalidRequestError
      (fun i _ _ => ⟨PyErr.invalidRequestError, rfl, rfl⟩) rfl
  · rw [call_with_backoff_narr, MAX_RETRIES]
    rw [show (3 : ℕ) = 2 + 1 from rfl, backoffLoop_fuel_succ]
    simp [narrCatch]

/-- C9: between consecutive oracle attempts both sources sleep exactly
INITIAL_BACKOFF * 2^(i-1) before retry i, i.e. the sleep sequence for k
transient failures followed by success is INITIAL_BACKOFF, 2*INITIAL_BACKOFF,
4*INITIAL_BACKOFF, ... (k entries), and when every attempt fails transiently
there are exactly MAX_RETRIES - 1 sleeps — none after the final failing
attempt. -/
theorem C9_backoff_delays :
    (∀ (oracle : ℕ → OracleOutcome) (k : ℕ) (v : String), k < MAX_RETRIES →
      (∀ i, 1 ≤ i → i ≤ k → ∃ e, oracle i = OracleOutcome.err e ∧ isTransient e = true) →
      oracle (k + 1) = OracleOutcome.ok v →
      (call_with_backoff_multi oracle).sleeps =
        (List.range k).map (fun i => INITIAL_BACKOFF * 2 ^ i) ∧
      (call_with_backoff_narr oracle).sleeps =
        (List.range k).map (fun i => INITIAL_BACKOFF * 2 ^ i)) ∧
    (∀ (oracle : ℕ → OracleOutcome),
      (∀ i, 1 ≤ i → i ≤ MAX_RETRIES → ∃ e, oracle i = OracleOutcome.err e ∧ isTransient e = true) →
      (call_with_backoff_multi oracle).sleeps =
        (List.range (MAX_RETRIES - 1)).map (fun i => INITIAL_BACKOFF * 2 ^ i) ∧
      (call_with_backoff_narr oracle).sleeps =
        (List.range (MAX_RETRIES - 1)).map (fun i => INITIAL_BACKOFF * 2 ^ i)) := by
  constructor
  · intro oracle k v hk hfail hsucc
    have hm := backoffLoop_ok_spec multiCatch oracle k v hk
      (fun i h1 h2 => (hfail i h1 h2).elim fun e he => ⟨e, he.1, isTransient_multiCatch he.2⟩)
      hsucc
    have hn := backoffLoop_ok_spec narrCatch oracle k v hk
      (fun i h1 h2 => (hfail i h1 h2).elim fun e he => ⟨e, he.1, isTransient_narrCatch he.2⟩)
      hsucc
    rw [call_with_backoff_multi, call_with_backoff_narr, hm, hn]
    exact ⟨rfl, rfl⟩
  · intro oracle hfail
    obtain ⟨eL, hL, _⟩ := hfail MAX_RETRIES (by simp [MAX_RETRIES]) le_rfl
    have hm := backoffLoop_exhaust_spec multiCatch oracle eL
      (fun i h1 h2 => (hfail i h1 h2).elim fun e he => ⟨e, he.1, isTransient_multiCatch he.2⟩)
      hL
    have hn := backoffLoop_exhaust_spec narrCatch oracle eL
      (fun i h1 h2 => (hfail i h1 h2).elim fun e he => ⟨e, he.1, isTransient_narrCatch he.2⟩)
      hL
    rw [call_with_backoff_multi, call_with_backoff_narr, hm, hn]
    constructor <;> simp [MAX_RETRIES, List.range_succ, INITIAL_BACKOFF]

lemma backoff_first_success (c : PyErr → Bool) (o : ℕ → OracleOutcome) (raw : String)
    (h : o 1 = OracleOutcome.ok raw) :
    backoffLoop c o 1 MAX_RETRIES = ⟨CallResult.ok raw, 1, []⟩ := by
  have := backoffLoop_ok_spec c o 0 raw (by simp [MAX_RETRIES])
    (fun i h1 h2 => absurd (le_trans h1 h2) (by norm_num)) h
  simpa using this

/-- C1 (amended): both grade_exam functions return the oracle's decoded JSON
verbatim — the total_score field is whatever the oracle reported, with no
recomputation from the per-question scores. -/
theorem C1_total_passed_through (rubric questions responses raw : String) (j : Json)
    (oracle : ℕ → OracleOutcome) (h1 : oracle 1 = OracleOutcome.ok raw)
    (h2 : json_loads raw = some j) :
    grade_exam_multi rubric questions responses "narrative" oracle = Except.ok j ∧
    grade_exam_narr rubric questions responses oracle = Except.ok j := by
  have hm := backoff_first_success multiCatch oracle raw h1
  have hn := backoff_first_success narrCatch oracle raw h1
  constructor
  · by_cases hr : pyStrip rubric = "" <;>
      simp [grade_exam_multi, grade_exam_prompts, hr, call_with_backoff_multi, hm, h2]
  · simp [grade_exam_narr, call_with_backoff_narr, hn, h2]

/-- C1 counterexample: on the response above, grade_exam returns total_score 3
while the only per-question score is 8, whose sum (and mean) is 8 — the
returned total is neither recomputed nor consistent with the parts. -/
theorem C1_total_trusted_counterexample :
    resultTotal (grade_exam_multi "" "q" "a" "narrative"
      (fun _ => OracleOutcome.ok inconsistentTotalResponse)) = some 3 ∧
    resultQuestionScores (grade_exam_multi "" "q" "a" "narrative"
      (fun _ => OracleOutcome.ok inconsistentTotalResponse)) = [8] ∧
    sumScores [8] = 8 ∧ meanScores [8] = 8 ∧
    resultTotal (grade_exam_multi "" "q" "a" "narrative"
      (fun _ => OracleOutcome.ok inconsistentTotalResponse)) ≠
      some (sumScores (resultQuestionScores (grade_exam_multi "" "q" "a" "narrative"
        (fun _ => OracleOutcome.ok inconsistentTotalResponse)))) := by
  refine ⟨rfl, rfl, by norm_num [sumScores], by norm_num [meanScores], ?_⟩
  intro h
  rw [show resultQuestionScores (grade_exam_multi "" "q" "a" "narrative"
        (fun _ => OracleOutcome.ok inconsistentTotalResponse)) = [8] from rfl] at h
  rw [show resultTotal (grade_exam_multi "" "q" "a" "narrative"
        (fun _ => OracleOutcome.ok inconsistentTotalResponse)) = some 3 from rfl] at h
  norm_num [sumScores] at h

/-- Witness for C1 (amended) at a concrete input: a consistent response is
returned verbatim by both sources. -/
theorem C1_total_passed_through_witness :
    ((fun _ : ℕ => OracleOutcome.ok
        "\x7b\x22question_1\x22: \x7b\x22score\x22: 8, \x22feedback\x22: \x22ok\x22\x7d, \x22total_score\x22: 8\x7d") 1 =
      OracleOutcome.ok
        "\x7b\x22question_1\x22: \x7b\x22score\x22: 8, \x22feedback\x22: \x22ok\x22\x7d, \x22total_score\x22: 8\x7d") ∧
    (json_loads
        "\x7b\x22question_1\x22: \x7b\x22score\x22: 8, \x22feedback\x22: \x22ok\x22\x7d, \x22total_score\x22: 8\x7d" =
      some (Json.obj [("question_1", Json.obj [("score", Json.num 8), ("feedback", Json.str "ok")]),
        ("total_score", Json.num 8)])) ∧
    grade_exam_multi "" "q" "a" "narrative"
      (fun _ => OracleOutcome.ok
        "\x7b\x22question_1\x22: \x7b\x22score\x22: 8, \x22feedback\x22: \x22ok\x22\x7d, \x22total_score\x22: 8\x7d") =
      Except.ok (Json.obj [("question_1", Json.obj [("score", Json.num 8), ("feedback", Json.str "ok")]),
        ("total_score", Json.num 8)]) ∧
    grade_exam_narr "" "q" "a"
      (fun _ => OracleOutcome.ok
        "\x7b\x22question_1\x22: \x7b\x22score\x22: 8, \x22feedback\x22: \x22ok\x22\x7d, \x22total_score\x22: 8\x7d") =
      Except.ok (Json.obj [("question_1", Json.obj [("score", Json.num 8), ("feedback", Json.str "ok")]),
        ("total_score", Json.num 8)]) :=
  ⟨rfl, rfl,
    (C1_total_passed_through "" "q" "a"
      "\x7b\x22question_1\x22: \x7b\x22score\x22: 8, \x22feedback\x22: \x22ok\x22\x7d, \x22total_score\x22: 8\x7d" (Json.obj [("question_1", Json.obj [("score", Json.num 8), ("feedback", Json.str "ok")]),
        ("total_score", Json.num 8)])
      (fun _ => OracleOutcome.ok "\x7b\x22question_1\x22: \x7b\x22score\x22: 8, \x22feedback\x22: \x22ok\x22\x7d, \x22total_score\x22: 8\x7d") rfl rfl).1,
    (C1_total_passed_through "" "q" "a"
      "\x7b\x22question_1\x22: \x7b\x22score\x22: 8, \x22feedback\x22: \x22ok\x22\x7d, \x22total_score\x22: 8\x7d" (Json.obj [("question_1", Json.obj [("score", Json.num 8), ("feedback", Json.str "ok")]),
        ("total_score", Json.num 8)])
      (fun _ => OracleOutcome.ok "\x7b\x22question_1\x22: \x7b\x22score\x22: 8, \x22feedback\x22: \x22ok\x22\x7d, \x22total_score\x22: 8\x7d") rfl rfl).2⟩

/-- C4 (amended): when the oracle's text fails JSON decoding, the multi-agent
grade_exam catches the decode error and returns the typed dict
`{"error": "Invalid JSON", "raw": raw}` — carrying the raw oracle text, with
no total and no per-question scores, so it cannot be mistaken for a score —
while the narrative-agent grade_exam propagates the JSONDecodeError instead
of returning a typed result. -/
theorem C4_parse_failure_typed (rubric questions responses raw : String)
    (oracle : ℕ → OracleOutcome) (h1 : oracle 1 = OracleOutcome.ok raw)
    (h2 : json_loads raw = none) :
    grade_exam_multi rubric questions responses "narrative" oracle =
      Except.ok (Json.obj [("error", Json.str "Invalid JSON"), ("raw", Json.str raw)]) ∧
    resultTotal (grade_exam_multi rubric questions responses "narrative" oracle) = none ∧
    resultQuestionScores (grade_exam_multi rubric questions responses "narrative" oracle) = [] ∧
    grade_exam_narr rubric questions responses oracle = Except.error GradeErr.jsonDecodeRaised := by
  have hm := backoff_first_success multiCatch oracle raw h1
  have hn := backoff_first_success narrCatch oracle raw h1
  have hmain : grade_exam_multi rubric questions responses "narrative" oracle =
      Except.ok (Json.obj [("error", Json.str "Invalid JSON"), ("raw", Json.str raw)]) := by
    by_cases hr : pyStrip rubric = "" <;>
      simp [grade_exam_multi, grade_exam_prompts, hr, call_with_backoff_multi, hm, h2]
  refine ⟨hmain, ?_, ?_, ?_⟩
  · rw [hmain]
    simp [resultTotal, totalScoreOf, jsonLookup]
  · rw [hmain]
    simp [resultQuestionScores, questionScoresOf, jsonLookup]
  · simp [grade_exam_narr, call_with_backoff_narr, hn, h2]

/-- C4 counterexample: on the oracle response "not json", the cited
narrative-agent grade_exam raises the JSON decode error rather than returning
a ParseFailure-typed result — the claim's "grade_exam does not raise" fails
on that source. -/
theorem C4_narr_raises_counterexample :
    grade_exam_narr "r" "q" "a" (fun _ => OracleOutcome.ok "not json") =
      Except.error GradeErr.jsonDecodeRaised := rfl

/-- Witness for C4 (amended) at the concrete input "not json". -/
theorem C4_parse_failure_typed_witness :
    ((fun _ : ℕ => OracleOutcome.ok "not json") 1 = OracleOutcome.ok "not json") ∧
    json_loads "not json" = none ∧
    grade_exam_multi "" "q" "a" "narrative" (fun _ => OracleOutcome.ok "not json") =
      Except.ok (Json.obj [("error", Json.str "Invalid JSON"), ("raw", Json.str "not json")]) ∧
    resultTotal (grade_exam_multi "" "q" "a" "narrative"
      (fun _ => OracleOutcome.ok "not json")) = none :=
  ⟨rfl, rfl,
    (C4_parse_failure_typed "" "q" "a" "not json"
      (fun _ => OracleOutcome.ok "not json") rfl rfl).1,
    (C4_parse_failure_typed "" "q" "a" "not json"
      (fun _ => OracleOutcome.ok "not json") rfl rfl).2.1⟩

set_option maxRecDepth 12000 in
/-- C5 (amended): the multi-agent grade_exam always selects exactly one prompt
path, but by silent default rather than validated classification — any
exam_type other than "technical" (including "vc_pitch" and unrecognized
strings) falls through to the narrative path, and no AmbiguousClassification
error exists; the technical branch itself raises a KeyError while formatting
its prompt template (whose literal JSON braces are parsed as replacement
fields), so no prompts are produced there. -/
theorem C5_router_fallthrough (rubric questions responses exam_type : String) :
    (exam_type ≠ "technical" → pyStrip rubric ≠ "" →
      grade_exam_prompts rubric questions responses exam_type =
        Except.ok ⟨NARRATIVE_PROMPT_WITH_RUBRIC,
          "Rubric:\n" ++ rubric ++ "\n\nQuestions:\n" ++ questions ++
            "\n\nStudent Responses:\n" ++ responses⟩) ∧
    (exam_type ≠ "technical" → pyStrip rubric = "" →
      grade_exam_prompts rubric questions responses exam_type =
        Except.ok ⟨NARRATIVE_PROMPT_NO_RUBRIC,
          "Questions:\n" ++ questions ++ "\n\nStudent Responses:\n" ++ responses⟩) ∧
    (∃ e, grade_exam_prompts "" questions responses "technical" = Except.error e) := by
  refine ⟨?_, ?_, ?_⟩
  · intro ht hr
    simp [grade_exam_prompts, ht, hr]
  · intro ht hr
    simp [grade_exam_prompts, ht, hr]
  · exact ⟨"KeyError: \n  \x22question_1\x22", by rfl⟩

/-- C5 counterexample: a "vc_pitch" submission handed to the multi-agent
grade_exam silently selects the narrative prompt path — no
AmbiguousClassification failure occurs before grading. -/
theorem C5_silent_fallthrough_counterexample :
    grade_exam_prompts "" "q" "a" "vc_pitch" =
      Except.ok ⟨NARRATIVE_PROMPT_NO_RUBRIC, "Questions:\nq\n\nStudent Responses:\na"⟩ := rfl

/-- Witness for C5 (amended) at a concrete input. -/
theorem C5_router_fallthrough_witness :
    ("essay" ≠ "technical") ∧ (pyStrip "R" ≠ "") ∧
    grade_exam_prompts "R" "q" "a" "essay" =
      Except.ok ⟨NARRATIVE_PROMPT_WITH_RUBRIC,
        "Rubric:\nR\n\nQuestions:\nq\n\nStudent Responses:\na"⟩ :=
  ⟨by decide, by decide,
    (C5_router_fallthrough "R" "q" "a" "essay").1 (by decide) (by decide)⟩

/-- Witness for C9 at a concrete input: one transient connection failure then
success yields the single sleep INITIAL_BACKOFF * 2^0 in both sources. -/
theorem C9_backoff_delays_witness :
    ((fun n => if n = 1 then OracleOutcome.err PyErr.apiConnectionError
        else OracleOutcome.ok "ok") (1 + 1) = OracleOutcome.ok "ok") ∧
    (call_with_backoff_multi (fun n => if n = 1 then OracleOutcome.err PyErr.apiConnectionError
        else OracleOutcome.ok "ok")).sleeps =
      (List.range 1).map (fun i => INITIAL_BACKOFF * 2 ^ i) ∧
    (call_with_backoff_narr (fun n => if n = 1 then OracleOutcome.err PyErr.apiConnectionError
        else OracleOutcome.ok "ok")).sleeps =
      (List.range 1).map (fun i => INITIAL_BACKOFF * 2 ^ i) :=
  ⟨rfl,
    (C9_backoff_delays.1
      (fun n => if n = 1 then OracleOutcome.err PyErr.apiConnectionError
        else OracleOutcome.ok "ok")
      1 "ok" (by norm_num [MAX_RETRIES])
      (fun i h1 h2 => by
        have hi : i = 1 := le_antisymm h2 h1
        subst hi
        exact ⟨PyErr.apiConnectionError, rfl, rfl⟩)
      rfl).1,
    (C9_backoff_delays.1
      (fun n => if n = 1 then OracleOutcome.err PyErr.apiConnectionError
        else OracleOutcome.ok "ok")
      1 "ok" (by norm_num [MAX_RETRIES])
      (fun i h1 h2 => by
        have hi : i = 1 := le_antisymm h2 h1
        subst hi
        exact ⟨PyErr.apiConnectionError, rfl, rfl⟩)
      rfl).2⟩


/-- C6: for every vc-pitch submission for which the boolean audio-check
oracle answers has_audio = false (in particular one with no audio input), the
guardrail tripwire fires and the run halts in the MissingRequiredInput state
with the grading oracle invoked zero times. -/
theorem C6_missing_audio_gate (checkAnswer : VCAudioCheck)
    (h : checkAnswer.has_audio = false) :
    run_vc_pitch_agent checkAnswer = ⟨VCPitchOutcome.missingRequiredInput, 0⟩ ∧
    (require_audio checkAnswer).tripwire_triggered = true := by
  constructor <;> simp [run_vc_pitch_agent, require_audio, h]

/-- Witness for C6 at a concrete check answer. -/
theorem C6_missing_audio_gate_witness :
    (VCAudioCheck.mk false "no audio file was provided").has_audio = false ∧
    run_vc_pitch_agent (VCAudioCheck.mk false "no audio file was provided") =
      ⟨VCPitchOutcome.missingRequiredInput, 0⟩ :=
  ⟨rfl, (C6_missing_audio_gate (VCAudioCheck.mk false "no audio file was provided") rfl).1⟩

/-- C7: calling transcribe twice with the same source identity invokes the
external transcription at most once in total and the second call returns a
transcript identical to the first; a hit returns the stored value with no
external call, and a miss computes, persists under the cache key, and returns
the computed transcript. -/
theorem C7_cache_computes_at_most_once (fs : CacheFS) (mp3_path tr1 tr2 : String) :
    ((transcribe fs tr1 WriteBehavior.succeeds mp3_path).computeCalls +
      (transcribe (transcribe fs tr1 WriteBehavior.succeeds mp3_path).fs tr2
        WriteBehavior.succeeds mp3_path).computeCalls ≤ 1) ∧
    ((transcribe (transcribe fs tr1 WriteBehavior.succeeds mp3_path).fs tr2
        WriteBehavior.succeeds mp3_path).outcome =
      (transcribe fs tr1 WriteBehavior.succeeds mp3_path).outcome) ∧
    (∀ stored, fs (os_path_basename mp3_path ++ ".txt") = some stored →
      (transcribe fs tr1 WriteBehavior.succeeds mp3_path).outcome = TranscribeOutcome.ok stored ∧
      (transcribe fs tr1 WriteBehavior.succeeds mp3_path).computeCalls = 0) ∧
    (fs (os_path_basename mp3_path ++ ".txt") = none →
      (transcribe fs tr1 WriteBehavior.succeeds mp3_path).outcome = TranscribeOutcome.ok tr1 ∧
      (transcribe fs tr1 WriteBehavior.succeeds mp3_path).fs
        (os_path_basename mp3_path ++ ".txt") = some tr1 ∧
      (transcribe fs tr1 WriteBehavior.succeeds mp3_path).computeCalls = 1) := by
  cases hfs : fs (os_path_basename mp3_path ++ ".txt") <;>
    simp [transcribe, cacheWrite, hfs]

/-- Witness for C7 on a concrete empty cache. -/
theorem C7_cache_computes_at_most_once_witness :
    ((fun _ : String => (none : Option String)) (os_path_basename "talk.mp3" ++ ".txt") = none) ∧
    ((transcribe (fun _ => none) "hello" WriteBehavior.succeeds "talk.mp3").outcome =
      TranscribeOutcome.ok "hello" ∧
      (transcribe (fun _ => none) "hello" WriteBehavior.succeeds "talk.mp3").fs
        (os_path_basename "talk.mp3" ++ ".txt") = some "hello" ∧
      (transcribe (fun _ => none) "hello" WriteBehavior.succeeds "talk.mp3").computeCalls = 1) ∧
    ((transcribe (fun _ => none) "hello" WriteBehavior.succeeds "talk.mp3").computeCalls +
      (transcribe (transcribe (fun _ => none) "hello" WriteBehavior.succeeds "talk.mp3").fs "other"
        WriteBehavior.succeeds "talk.mp3").computeCalls ≤ 1) ∧
    ((transcribe (transcribe (fun _ => none) "hello" WriteBehavior.succeeds "talk.mp3").fs "other"
        WriteBehavior.succeeds "talk.mp3").outcome =
      (transcribe (fun _ => none) "hello" WriteBehavior.succeeds "talk.mp3").outcome) :=
  ⟨rfl,
    (C7_cache_computes_at_most_once (fun _ => none) "talk.mp3" "hello" "other").2.2.2 rfl,
    (C7_cache_computes_at_most_once (fun _ => none) "talk.mp3" "hello" "other").1,
    (C7_cache_computes_at_most_once (fun _ => none) "talk.mp3" "hello" "other").2.1⟩

/-- C8 (amended): on a cache miss whose persistence write fails, transcribe
does NOT return the freshly computed transcript — the write exception
propagates out of the function (there is no try/except around the write),
after the external transcription has already been invoked once. -/
theorem C8_write_failure_raises (fs : CacheFS) (computed mp3_path : String)
    (hmiss : fs (os_path_basename mp3_path ++ ".txt") = none) :
    (transcribe fs computed WriteBehavior.fails mp3_path).outcome =
      TranscribeOutcome.raisedWriteError ∧
    (transcribe fs computed WriteBehavior.fails mp3_path).outcome ≠
      TranscribeOutcome.ok computed ∧
    (transcribe fs computed WriteBehavior.fails mp3_path).computeCalls = 1 := by
  refine ⟨?_, ?_, ?_⟩ <;> simp [transcribe, hmiss]

/-- C8 counterexample: at a concrete missed key with a failing write,
transcribe raises the write error instead of returning the computed
transcript, refuting the claim that a persistence failure is non-fatal and
never propagated. -/
theorem C8_write_failure_counterexample :
    (transcribe (fun _ => none) "the transcript" WriteBehavior.fails "talk.mp3").outcome =
      TranscribeOutcome.raisedWriteError ∧
    (transcribe (fun _ => none) "the transcript" WriteBehavior.fails "talk.mp3").outcome ≠
      TranscribeOutcome.ok "the transcript" := by
  constructor
  · rfl
  · intro h
    exact absurd (rfl.symm.trans h) (by simp [transcribe])

/-- Witness for C8 (amended) at a concrete input. -/
theorem C8_write_failure_raises_witness :
    ((fun _ : String => (none : Option String)) (os_path_basename "talk.mp3" ++ ".txt") = none) ∧
    ((transcribe (fun _ => none) "the transcript" WriteBehavior.fails "talk.mp3").outcome =
      TranscribeOutcome.raisedWriteError ∧
      (transcribe (fun _ => none) "the transcript" WriteBehavior.fails "talk.mp3").outcome ≠
        TranscribeOutcome.ok "the transcript" ∧
      (transcribe (fun _ => none) "the transcript" WriteBehavior.fails "talk.mp3").computeCalls = 1) :=
  ⟨rfl, C8_write_failure_raises (fun _ => none) "the transcript" "talk.mp3" rfl⟩

/-- C10: the multi-agent analyze_audio returns wpm = 0 and silence_ratio = 0
when the loaded duration is zero (no division-by-zero), returns exactly
wpm = word_count/(duration/60) and silence_ratio = (duration - voiced)/duration
when duration is nonzero, and silence_ratio lies in [0, 1] whenever the voiced
time is nonnegative and does not exceed the duration. -/
theorem C10_analyze_audio_safety (y_len sr : ℕ) (transcript : String)
    (intervals : List (ℕ × ℕ)) :
    ((analyze_audio y_len sr transcript intervals).duration = 0 →
      (analyze_audio y_len sr transcript intervals).wpm = 0 ∧
      (analyze_audio y_len sr transcript intervals).silence_ratio = 0) ∧
    ((analyze_audio y_len sr transcript intervals).duration ≠ 0 →
      (analyze_audio y_len sr transcript intervals).wpm =
        (pyWordCount transcript : ℚ) /
          ((analyze_audio y_len sr transcript intervals).duration / 60) ∧
      (analyze_audio y_len sr transcript intervals).silence_ratio =
        ((analyze_audio y_len sr transcript intervals).duration - voicedTime intervals sr) /
          (analyze_audio y_len sr transcript intervals).duration) ∧
    (0 ≤ voicedTime intervals sr →
      voicedTime intervals sr ≤ (analyze_audio y_len sr transcript intervals).duration →
      0 ≤ (analyze_audio y_len sr transcript intervals).silence_ratio ∧
      (analyze_audio y_len sr transcript intervals).silence_ratio ≤ 1) := by
  have hdnn : (0 : ℚ) ≤ (y_len : ℚ) / (sr : ℚ) := by positivity
  refine ⟨?_, ?_, ?_⟩
  · intro hd
    simp only [analyze_audio] at hd ⊢
    simp [hd]
  · intro hd
    simp only [analyze_audio] at hd ⊢
    simp [hd]
  · intro hv hvd
    simp only [analyze_audio] at hvd ⊢
    by_cases hd : (y_len : ℚ) / (sr : ℚ) = 0
    · simp [hd]
    · have hdpos : (0 : ℚ) < (y_len : ℚ) / (sr : ℚ) := lt_of_le_of_ne hdnn (Ne.symm hd)
      simp only [hd, if_neg, ne_eq, not_false_iff, if_true]
      constructor
      · apply div_nonneg _ hdnn
        simpa using hvd
      · rw [div_le_one hdpos]
        simpa using hv

/-- Witness for C10 at a concrete input: 2 seconds of audio at 16 kHz with one
second voiced gives a silence ratio inside [0, 1]. -/
theorem C10_analyze_audio_safety_witness :
    (0 : ℚ) ≤ voicedTime [(0, 16000)] 16000 ∧
    voicedTime [(0, 16000)] 16000 ≤
      (analyze_audio 32000 16000 "hello world" [(0, 16000)]).duration ∧
    (0 ≤ (analyze_audio 32000 16000 "hello world" [(0, 16000)]).silence_ratio ∧
      (analyze_audio 32000 16000 "hello world" [(0, 16000)]).silence_ratio ≤ 1) :=
  ⟨by norm_num [voicedTime],
    by norm_num [voicedTime, analyze_audio],
    (C10_analyze_audio_safety 32000 16000 "hello world" [(0, 16000)]).2.2
      (by norm_num [voicedTime])
      (by norm_num [voicedTime, analyze_audio])⟩

end ExamGrader
